import Mathlib

/-!
# Verification of the Tracertool3 signal/position state machine

This file is a shallow embedding, in Lean 4, of the core trading-strategy
logic of the repository:

* `IPCStrategy` (`src/ipc_server/ipc_strategy.py`): signal generation
  (`check_signal_trigger`), position management
  (`check_position_management`), position closing (`close_position`), and
  the sequenced snapshot update (`_update_strategy_state`).
* `SimpleTestStrategy` (`src/ipc_server/simple_test_strategy.py`): the
  state snapshot update, the trade entry, the trailing-stop tick handler
  with offline suppression (`_check_trailing_stop` /
  `_broadcast_trailing_stop_update`), and the offline-window frozen-state
  reader (`get_strategy_state`).

Modelling conventions:

* Python `float` values are modelled as rationals (`ℚ`); the arithmetic in
  the source (additions, subtractions, comparisons, a division for the PnL
  percentage) is embedded literally over `ℚ`.  Lean's `x / 0 = 0`
  convention makes the PnL percentage of a zero-entry position `0` where
  Python would raise a `ZeroDivisionError` that the enclosing handler
  catches before any state mutation; no claim concerns that corner, and
  under both behaviours the trace-level theorems (alternation, sequence
  monotonicity) describe the code correctly.
* Python `datetime` instants are modelled as rationals measured in hours,
  so `now - entry_time > timedelta(hours=h)` becomes `h < now - entry_time`.
* `prediction_time` is consumed by the source only through its New-York
  local rendering (`ny_time.weekday()`, `ny_time.hour`); the zoneinfo
  conversion is an external library call, so the embedding takes the
  already-converted local time (`NYTime`) as the input, `none` standing for
  an empty/unparseable `prediction_time` string (early return in the
  source).
* The tick dictionary's `"p"` entry is `TickField`: `absent` (the key is
  missing, `tick_data.get("p", 0)` yields `0`), `num q` (a numeric value),
  or `junk` (a non-numeric value on which Python's `float(...)` raises;
  the surrounding `try/except` then logs and leaves the state unchanged).
  `floatOfField` embeds `float(tick_data.get("p", 0))` as an
  `Option ℚ`, `none` being the raised-and-caught exception.
* Broadcast is fire-and-forget in the source and never feeds back into the
  state, so an emitted event is returned as an `Option Event` value
  instead of being sent to a callback.
-/

namespace Tracertool

/- The Batteries rational-number operations are `@[irreducible]`, which
blocks kernel evaluation of concrete scenarios by `decide`; make them
semireducible within this development so closed facts about the embedded
strategies can be decided by computation. -/
attribute [local semireducible] Rat.add Rat.sub Rat.mul Rat.inv


/-- Trade direction, `"LONG"` / `"SHORT"` in the source. -/
inductive Dir
  | LONG
  | SHORT
  deriving DecidableEq, Repr

/-- The `position` field of a strategy event: `"OPEN"`, `"UPDATE"`, `"CLOSE"`. -/
inductive PosTag
  | OPEN
  | UPDATE
  | CLOSE
  deriving DecidableEq, Repr

/-- The `reason` field of a strategy event. -/
inductive Reason
  | SIGNAL_DETECTED
  | POSITION_TIME_LIMIT_HIT
  | STOP_LOSS_HIT
  | TRAILING_STOP_ACTIVATED
  | TRAILING_STOP_UPDATED
  deriving DecidableEq, Repr

/-- The `strategy_state` snapshot dict: keys `SL`, `TP`, `ENTRY`, `TSA`,
`TRAILING_STOP_ACTIVE`, `seq`.  In the "no position" branch of
`_update_strategy_state` only `seq` is present (`none` for the others). -/
structure Snap where
  SL : Option ℚ
  TP : Option ℚ
  ENTRY : Option ℚ
  TSA : Option ℚ
  TRAILING_STOP_ACTIVE : Option Bool
  seq : ℕ
  deriving DecidableEq, Repr

/-- The empty snapshot dict holding only the `seq` key, published when no
position exists. -/
def Snap.emptySeq (seq : ℕ) : Snap :=
  ⟨none, none, none, none, none, seq⟩

/-- The `"p"` entry of a tick dict: missing, numeric, or non-numeric. -/
inductive TickField
  | absent
  | num (q : ℚ)
  | junk
  deriving DecidableEq, Repr

/-- Embeds `float(tick_data.get("p", 0))`: a missing key defaults to `0`, a numeric
value converts, a non-numeric value raises (`none`, caught by the
enclosing `try/except`). -/
def floatOfField : TickField → Option ℚ
  | .absent => some 0
  | .num q => some q
  | .junk => none

/-- A tick dict, reduced to the one entry the strategy reads. -/
structure Tick where
  p : TickField
  deriving DecidableEq, Repr

/-- The `prediction_time` field converted to the New-York timezone, as far as the
source consumes it: `weekday()` (0 = Monday … 6 = Sunday), `hour`,
`minute`, `second`. Only `weekday` and `hour` are read by the session
filter. -/
structure NYTime where
  weekday : ℕ
  hour : ℕ
  minute : ℕ
  second : ℕ
  deriving DecidableEq, Repr

/-- A prediction dict.  `prediction_price` / `predicted_price` default to
`0` when absent (`prediction.get(..., 0)`); `prediction_time = none` models
an empty `prediction_time` string (early return in the source). -/
structure Prediction where
  prediction_price : Option ℚ
  predicted_price : Option ℚ
  prediction_time : Option NYTime
  deriving DecidableEq, Repr

/-- The configurable strategy parameters of `IPCStrategy.__init__`
(defaults: delta 500, initial stop 2000, activation offset 1000, trailing
distance 900, max duration 2h, session filter on). -/
structure Params where
  delta : ℚ
  initial_stop_loss_points : ℚ
  trailing_activation_offset : ℚ
  trailing_stop_distance : ℚ
  max_position_duration_hours : ℚ
  session_filter : Bool
  deriving DecidableEq, Repr

/-- The `active_signal` dict built in `check_signal_trigger` (the fields the
strategy reads back; `prediction_data` is write-only and omitted). -/
structure Signal where
  direction : Dir
  entry_price : ℚ
  stop_loss : ℚ
  target : ℚ
  trailing_activation_price : ℚ
  entry_time : ℚ
  deriving DecidableEq, Repr

/-- One broadcast strategy event, reduced to the `position`, `reason`,
`strategy_state` and the `event_data` fields the claims mention.  Fields
not present in a given event's payload are `none`. -/
structure Event where
  position : PosTag
  reason : Reason
  snap : Snap
  direction : Option Dir
  entry_price : Option ℚ
  predicted_price : Option ℚ
  stop_loss_price : Option ℚ
  trailing_activation_price : Option ℚ
  peak_price : Option ℚ
  current_price : Option ℚ
  pnl : Option ℚ
  pnl_pct : Option ℚ
  deriving DecidableEq, Repr

/-- The mutable state of an `IPCStrategy` instance. -/
structure StrategyS where
  event_counter : ℕ
  active_signal : Option Signal
  trailing_stop_active : Bool
  peak_price : Option ℚ
  strategy_state : Snap
  state_sequence : ℕ
  deriving DecidableEq, Repr

/-- The state after `IPCStrategy.__init__`: no signal, sequence 0.  (The
source initialises `strategy_state` to an empty dict with no keys at all;
no claim reads
the snapshot before the first `_update_strategy_state`, so it is modelled
as the empty snapshot with `seq = 0`.) -/
def initState : StrategyS :=
  ⟨0, none, false, none, Snap.emptySeq 0, 0⟩

/-- Embeds `IPCStrategy._update_strategy_state`: increment `_state_sequence` and
rebuild `strategy_state` (empty when `active_signal` is `None`, full
otherwise). -/
def updateStrategyState (s : StrategyS) : StrategyS :=
  let seq := s.state_sequence + 1
  match s.active_signal with
  | none =>
      { s with state_sequence := seq, strategy_state := Snap.emptySeq seq }
  | some sig =>
      { s with
        state_sequence := seq
        strategy_state :=
          ⟨some sig.stop_loss, some sig.target, some sig.entry_price,
           some sig.trailing_activation_price, some s.trailing_stop_active, seq⟩ }

/-- Embeds `IPCStrategy.check_signal_trigger(prediction, tick_data)`.  `now` is the
wall-clock instant (`datetime.now(UTC)`) recorded as the entry time.
Returns the new state and the broadcast event, if any. -/
def check_signal_trigger (P : Params) (now : ℚ) (prediction : Prediction)
    (tick_data : Tick) (s : StrategyS) : StrategyS × Option Event :=
  if s.active_signal.isSome then (s, none)
  else
    let current_price_pred := prediction.prediction_price.getD 0
    let predicted_price := prediction.predicted_price.getD 0
    match prediction.prediction_time with
    | none => (s, none)
    | some prediction_time =>
      match floatOfField tick_data.p with
      | none => (s, none)
      | some current_tick_price =>
        let price_diff := predicted_price - current_price_pred
        if |price_diff| ≤ P.delta then (s, none)
        else if P.session_filter ∧
            (5 ≤ prediction_time.weekday ∨ prediction_time.hour < 8 ∨
              11 ≤ prediction_time.hour) then (s, none)
        else
          let direction := if 0 < price_diff then Dir.LONG else Dir.SHORT
          let entry_price := current_tick_price
          let stop_loss :=
            if direction = Dir.LONG then entry_price - P.initial_stop_loss_points
            else entry_price + P.initial_stop_loss_points
          let trailing_activation :=
            if direction = Dir.LONG then entry_price + P.trailing_activation_offset
            else entry_price - P.trailing_activation_offset
          let sig : Signal :=
            ⟨direction, entry_price, stop_loss, predicted_price,
             trailing_activation, now⟩
          let s1 : StrategyS :=
            { s with
              active_signal := some sig
              peak_price := some entry_price
              trailing_stop_active := false
              event_counter := s.event_counter + 1 }
          let s2 := updateStrategyState s1
          (s2, some
            { position := .OPEN
              reason := .SIGNAL_DETECTED
              snap := s2.strategy_state
              direction := some direction
              entry_price := some entry_price
              predicted_price := some predicted_price
              stop_loss_price := some stop_loss
              trailing_activation_price := some trailing_activation
              peak_price := none
              current_price := none
              pnl := none
              pnl_pct := none })

/-- Embeds `IPCStrategy.close_position(exit_price, reason)`. -/
def close_position (exit_price : ℚ) (reason : Reason) (s : StrategyS) :
    StrategyS × Option Event :=
  match s.active_signal with
  | none => (s, none)
  | some sig =>
    let pnl :=
      if sig.direction = Dir.LONG then exit_price - sig.entry_price
      else sig.entry_price - exit_price
    let pnl_pct := pnl / sig.entry_price * 100
    let s1 : StrategyS :=
      { s with
        event_counter := s.event_counter + 1
        active_signal := none
        trailing_stop_active := false
        peak_price := none }
    let s2 := updateStrategyState s1
    (s2, some
      { position := .CLOSE
        reason := reason
        snap := s2.strategy_state
        direction := some sig.direction
        entry_price := some sig.entry_price
        predicted_price := none
        stop_loss_price := some sig.stop_loss
        trailing_activation_price := none
        peak_price := none
        current_price := some exit_price
        pnl := some pnl
        pnl_pct := some pnl_pct })

/-- Embeds `IPCStrategy.check_position_management(tick_data)`.  `now` is the
wall-clock instant used for the time-limit comparison.  The `try/except`
paths (non-numeric price; `None` peak compared against a float) return the
state unchanged with no event, exactly as the caught exception does. -/
def check_position_management (P : Params) (now : ℚ) (tick_data : Tick)
    (s : StrategyS) : StrategyS × Option Event :=
  match s.active_signal with
  | none => (s, none)
  | some sig =>
    match floatOfField tick_data.p with
    | none => (s, none)
    | some current_price =>
      if P.max_position_duration_hours < now - sig.entry_time then
        -- time limit hit: close without clearing peak_price (the source's
        -- time-limit branch resets only active_signal and the trailing flag)
        let pnl :=
          if sig.direction = Dir.LONG then current_price - sig.entry_price
          else sig.entry_price - current_price
        let pnl_pct := pnl / sig.entry_price * 100
        let s1 : StrategyS :=
          { s with
            event_counter := s.event_counter + 1
            active_signal := none
            trailing_stop_active := false }
        let s2 := updateStrategyState s1
        (s2, some
          { position := .CLOSE
            reason := .POSITION_TIME_LIMIT_HIT
            snap := s2.strategy_state
            direction := some sig.direction
            entry_price := some sig.entry_price
            predicted_price := none
            stop_loss_price := none
            trailing_activation_price := none
            peak_price := none
            current_price := some current_price
            pnl := some pnl
            pnl_pct := some pnl_pct })
      else if sig.direction = Dir.LONG then
        if current_price ≤ sig.stop_loss then
          close_position current_price .STOP_LOSS_HIT s
        else if s.trailing_stop_active then
          match s.peak_price with
          | none => (s, none)
          | some pk =>
            if pk < current_price then
              let new_sl := current_price - P.trailing_stop_distance
              let sig' := { sig with stop_loss := new_sl }
              let s1 : StrategyS :=
                { s with
                  active_signal := some sig'
                  peak_price := some current_price
                  event_counter := s.event_counter + 1 }
              let s2 := updateStrategyState s1
              (s2, some
                { position := .UPDATE
                  reason := .TRAILING_STOP_UPDATED
                  snap := s2.strategy_state
                  direction := some sig.direction
                  entry_price := some sig.entry_price
                  predicted_price := none
                  stop_loss_price := some new_sl
                  trailing_activation_price := none
                  peak_price := some current_price
                  current_price := some current_price
                  pnl := none
                  pnl_pct := none })
            else (s, none)
        else if sig.trailing_activation_price ≤ current_price then
          let new_sl := current_price - P.trailing_stop_distance
          let sig' := { sig with stop_loss := new_sl }
          let s1 : StrategyS :=
            { s with
              active_signal := some sig'
              trailing_stop_active := true
              peak_price := some current_price
              event_counter := s.event_counter + 1 }
          let s2 := updateStrategyState s1
          (s2, some
            { position := .UPDATE
              reason := .TRAILING_STOP_ACTIVATED
              snap := s2.strategy_state
              direction := some sig.direction
              entry_price := some sig.entry_price
              predicted_price := none
              stop_loss_price := some new_sl
              trailing_activation_price := none
              peak_price := some current_price
              current_price := some current_price
              pnl := none
              pnl_pct := none })
        else (s, none)
      else
        if sig.stop_loss ≤ current_price then
          close_position current_price .STOP_LOSS_HIT s
        else if s.trailing_stop_active then
          match s.peak_price with
          | none => (s, none)
          | some pk =>
            if current_price < pk then
              let new_sl := current_price + P.trailing_stop_distance
              let sig' := { sig with stop_loss := new_sl }
              let s1 : StrategyS :=
                { s with
                  active_signal := some sig'
                  peak_price := some current_price
                  event_counter := s.event_counter + 1 }
              let s2 := updateStrategyState s1
              (s2, some
                { position := .UPDATE
                  reason := .TRAILING_STOP_UPDATED
                  snap := s2.strategy_state
                  direction := some sig.direction
                  entry_price := some sig.entry_price
                  predicted_price := none
                  stop_loss_price := some new_sl
                  trailing_activation_price := none
                  peak_price := some current_price
                  current_price := some current_price
                  pnl := none
                  pnl_pct := none })
            else (s, none)
        else if current_price ≤ sig.trailing_activation_price then
          let new_sl := current_price + P.trailing_stop_distance
          let sig' := { sig with stop_loss := new_sl }
          let s1 : StrategyS :=
            { s with
              active_signal := some sig'
              trailing_stop_active := true
              peak_price := some current_price
              event_counter := s.event_counter + 1 }
          let s2 := updateStrategyState s1
          (s2, some
            { position := .UPDATE
              reason := .TRAILING_STOP_ACTIVATED
              snap := s2.strategy_state
              direction := some sig.direction
              entry_price := some sig.entry_price
              predicted_price := none
              stop_loss_price := some new_sl
              trailing_activation_price := none
              peak_price := some current_price
              current_price := some current_price
              pnl := none
              pnl_pct := none })
        else (s, none)

/-- One external input to the strategy, carrying the wall-clock instant at
which it is processed: a prediction (routed, together with the latest
tick, to `check_signal_trigger`) or a tick (routed to
`check_position_management`). -/
inductive Input
  | prediction (now : ℚ) (pred : Prediction) (tick : Tick)
  | tick (now : ℚ) (t : Tick)
  deriving DecidableEq, Repr

/-- Process one input. -/
def step (P : Params) (i : Input) (s : StrategyS) : StrategyS × Option Event :=
  match i with
  | .prediction now pred t => check_signal_trigger P now pred t s
  | .tick now t => check_position_management P now t s

/-- Process a list of inputs, collecting the broadcast events in emission
order. -/
def run (P : Params) : List Input → StrategyS → StrategyS × List Event
  | [], s => (s, [])
  | i :: is, s =>
    let r := step P i s
    let rest := run P is r.1
    (rest.1, r.2.toList ++ rest.2)

/-! ## The `SimpleTestStrategy` variant (`simple_test_strategy.py`)

The offline window check `_is_in_offline_window` reads the real wall clock
(`datetime.now(UTC)` against `entry_time` plus the configured offsets), so
its boolean result is passed to the embedded operations as the parameter
`inOffline`. -/

/-- The configurable parameters of `SimpleTestStrategy` the embedded
operations read (timing-loop parameters drive only `asyncio` sleeps and
are external to the state logic). -/
structure TestParams where
  initial_stop_loss_points : ℚ
  trailing_activation_offset : ℚ
  trailing_stop_distance : ℚ
  direction : Dir
  deriving DecidableEq, Repr

/-- The mutable state of a `SimpleTestStrategy` instance. -/
structure TestS where
  event_counter : ℕ
  entry_time : Option ℚ
  entry_price : Option ℚ
  current_price : Option ℚ
  stop_loss_price : Option ℚ
  target_price : Option ℚ
  trailing_activation_price : Option ℚ
  trailing_stop_active : Bool
  peak_price : Option ℚ
  strategy_state : Snap
  state_sequence : ℕ
  offline_frozen_state : Option Snap
  deriving DecidableEq, Repr

/-- The state after `SimpleTestStrategy.__init__` (snapshot modelled as the
empty snapshot with `seq = 0`, as for `initState`). -/
def testInit : TestS :=
  ⟨0, none, none, none, none, none, none, false, none, Snap.emptySeq 0, 0, none⟩

/-- Embeds `SimpleTestStrategy._update_strategy_state`.  The source's guard is
`if not self.entry_price`, which by Python falsiness holds when
`entry_price` is `None` or `0.0`. -/
def updateTestState (s : TestS) : TestS :=
  let seq := s.state_sequence + 1
  if s.entry_price.getD 0 = 0 then
    { s with state_sequence := seq, strategy_state := Snap.emptySeq seq }
  else
    { s with
      state_sequence := seq
      strategy_state :=
        ⟨s.stop_loss_price, s.target_price, s.entry_price,
         s.trailing_activation_price, some s.trailing_stop_active, seq⟩ }

/-- Embeds `SimpleTestStrategy._enter_trade`: entry at the last seen market price
(fallback 50000), 1:1 target, direction-dependent stop and activation,
then a sequenced snapshot update and an OPEN event. -/
def enter_trade (P : TestParams) (now : ℚ) (s : TestS) : TestS × Event :=
  let entry_price := s.current_price.getD 50000
  let stop_loss :=
    if P.direction = Dir.LONG then entry_price - P.initial_stop_loss_points
    else entry_price + P.initial_stop_loss_points
  let target :=
    if P.direction = Dir.LONG then entry_price + P.initial_stop_loss_points
    else entry_price - P.initial_stop_loss_points
  let activation :=
    if P.direction = Dir.LONG then entry_price + P.trailing_activation_offset
    else entry_price - P.trailing_activation_offset
  let s1 : TestS :=
    { s with
      entry_time := some now
      entry_price := some entry_price
      stop_loss_price := some stop_loss
      target_price := some target
      trailing_activation_price := some activation
      trailing_stop_active := false
      peak_price := some entry_price
      event_counter := s.event_counter + 1 }
  let s2 := updateTestState s1
  (s2,
    { position := .OPEN
      reason := .SIGNAL_DETECTED
      snap := s2.strategy_state
      direction := some P.direction
      entry_price := some entry_price
      predicted_price := some target
      stop_loss_price := some stop_loss
      trailing_activation_price := none
      peak_price := none
      current_price := none
      pnl := none
      pnl_pct := none })

/-- Embeds `SimpleTestStrategy._broadcast_trailing_stop_update`: always refresh
the sequenced snapshot, then suppress the broadcast entirely when inside
the offline window (no event, no event-counter bump). -/
def broadcast_trailing_stop_update (inOffline : Bool) (current_price : ℚ)
    (reason : Reason) (s : TestS) : TestS × Option Event :=
  let s1 := updateTestState s
  if inOffline then (s1, none)
  else
    let s2 := { s1 with event_counter := s1.event_counter + 1 }
    (s2, some
      { position := .UPDATE
        reason := reason
        snap := s2.strategy_state
        direction := none
        entry_price := s2.entry_price
        predicted_price := none
        stop_loss_price := s2.stop_loss_price
        trailing_activation_price := none
        peak_price := s2.peak_price
        current_price := some current_price
        pnl := none
        pnl_pct := none })

/-- Embeds `SimpleTestStrategy._check_trailing_stop(current_price)`.  The guard
`if not self.entry_price or not self.stop_loss_price or not
self.trailing_activation_price` uses Python falsiness (`None` or `0.0`). -/
def check_trailing_stop (P : TestParams) (inOffline : Bool)
    (current_price : ℚ) (s : TestS) : TestS × Option Event :=
  if s.entry_price.getD 0 = 0 ∨ s.stop_loss_price.getD 0 = 0 ∨
      s.trailing_activation_price.getD 0 = 0 then (s, none)
  else if P.direction = Dir.LONG then
    if ¬s.trailing_stop_active ∧
        s.trailing_activation_price.getD 0 ≤ current_price then
      let s1 : TestS :=
        { s with
          trailing_stop_active := true
          peak_price := some current_price
          stop_loss_price := some (current_price - P.trailing_stop_distance) }
      broadcast_trailing_stop_update inOffline current_price
        .TRAILING_STOP_ACTIVATED s1
    else if s.trailing_stop_active ∧ s.peak_price.getD 0 < current_price then
      let s1 : TestS :=
        { s with
          peak_price := some current_price
          stop_loss_price := some (current_price - P.trailing_stop_distance) }
      broadcast_trailing_stop_update inOffline current_price
        .TRAILING_STOP_UPDATED s1
    else (s, none)
  else
    if ¬s.trailing_stop_active ∧
        current_price ≤ s.trailing_activation_price.getD 0 then
      let s1 : TestS :=
        { s with
          trailing_stop_active := true
          peak_price := some current_price
          stop_loss_price := some (current_price + P.trailing_stop_distance) }
      broadcast_trailing_stop_update inOffline current_price
        .TRAILING_STOP_ACTIVATED s1
    else if s.trailing_stop_active ∧ current_price < s.peak_price.getD 0 then
      let s1 : TestS :=
        { s with
          peak_price := some current_price
          stop_loss_price := some (current_price + P.trailing_stop_distance) }
      broadcast_trailing_stop_update inOffline current_price
        .TRAILING_STOP_UPDATED s1
    else (s, none)

/-- Embeds `SimpleTestStrategy.get_strategy_state`: during the offline window the
first call captures the current snapshot into `_offline_frozen_state` and
every call returns the captured copy; outside the window the live snapshot
is returned and the captured copy is cleared. -/
def get_strategy_state (inOffline : Bool) (s : TestS) : Snap × TestS :=
  if inOffline then
    match s.offline_frozen_state with
    | none => (s.strategy_state, { s with offline_frozen_state := some s.strategy_state })
    | some f => (f, s)
  else
    (s.strategy_state, { s with offline_frozen_state := none })

/-! ## Concrete instances and auxiliary predicates used by the claims -/

/-- The parameter set of the end-to-end scenario (§8 of the spec): delta
500, initial stop 2000, activation offset 1000, trailing distance 900,
max duration 2h, session filter off. -/
def P0 : Params := ⟨500, 2000, 1000, 900, 2, false⟩

/-- The end-to-end scenario inputs: the triggering prediction with the
latest tick at 100000, then ticks at 101000 and 100050 (all inside the
2-hour window). -/
def scenarioInputs : List Input :=
  [ .prediction 0 ⟨some 100000, some 100700, some ⟨2, 9, 30, 0⟩⟩ ⟨.num 100000⟩,
    .tick 0 ⟨.num 101000⟩,
    .tick 0 ⟨.num 100050⟩ ]

/-- A strategy state holding an open LONG position (entry 100000, stop
98000, target 100700, activation 101000), as produced by the scenario's
OPEN step. -/
def sLong : StrategyS :=
  { event_counter := 1
    active_signal := some ⟨.LONG, 100000, 98000, 100700, 101000, 0⟩
    trailing_stop_active := false
    peak_price := some 100000
    strategy_state := ⟨some 98000, some 100700, some 100000, some 101000, some false, 1⟩
    state_sequence := 1 }

/-- Test-strategy parameters with the source defaults (stop 2000,
activation offset 1000, trailing distance 900, LONG). -/
def TP0 : TestParams := ⟨2000, 1000, 900, .LONG⟩

/-- Test-strategy state just after `_enter_trade` (entry 50000 fallback,
snapshot at seq 1) — the state at the moment offline suppression begins in
the C9 scenario. -/
def c9_entered : TestS := (enter_trade TP0 0 testInit).1

/-- The same state after one in-window tick at 51000: the trailing stop
activates and the internal snapshot advances to seq 2 while the broadcast
is suppressed. -/
def c9_advanced : TestS := (check_trailing_stop TP0 true 51000 c9_entered).1

/-- Invariant relating the stored stop loss to the peak while trailing is
active: `stop_loss = peak ∓ trailing_stop_distance` (sign per direction).
It holds in every reachable trailing-active state and is what makes the
trailing stop monotonically tightening. -/
def trailingInv (P : Params) (s : StrategyS) : Prop :=
  ∀ sig : Signal, s.active_signal = some sig → s.trailing_stop_active = true →
    ∃ pk : ℚ, s.peak_price = some pk ∧
      sig.stop_loss =
        (if sig.direction = Dir.LONG then pk - P.trailing_stop_distance
         else pk + P.trailing_stop_distance)

/-- Open/close alternation automaton over an event trace: reading the
trace left to right with `b` = "a position is currently open", an `OPEN`
event is legal only when `b = false`. -/
def altFrom : Bool → List Event → Prop
  | _, [] => True
  | b, e :: rest =>
    match e.position with
    | .OPEN => b = false ∧ altFrom true rest
    | .CLOSE => altFrom false rest
    | .UPDATE => altFrom b rest

/-- The parameter set with the source defaults and session filtering on. -/
def Pfilter : Params := ⟨500, 2000, 1000, 900, 2, true⟩

/-- An input sequence producing an OPEN, a stop-loss CLOSE and a second
OPEN: the triggering prediction, a tick at 90000 (through the stop), and
the prediction again. -/
def c1Inputs : List Input :=
  [ .prediction 0 ⟨some 100000, some 100700, some ⟨2, 9, 30, 0⟩⟩ ⟨.num 100000⟩,
    .tick 0 ⟨.num 90000⟩,
    .prediction 0 ⟨some 100000, some 100700, some ⟨2, 9, 30, 0⟩⟩ ⟨.num 100000⟩ ]

/-- The first OPEN event of `c1Inputs`. -/
def c1OpenEv1 : Event :=
  ⟨.OPEN, .SIGNAL_DETECTED, ⟨some 98000, some 100700, some 100000, some 101000, some false, 1⟩,
   some .LONG, some 100000, some 100700, some 98000, some 101000, none, none, none, none⟩

/-- The stop-loss CLOSE event of `c1Inputs`. -/
def c1CloseEv : Event :=
  ⟨.CLOSE, .STOP_LOSS_HIT, Snap.emptySeq 2,
   some .LONG, some 100000, none, some 98000, none, none, some 90000,
   some (-10000), some (-10)⟩

/-- The second OPEN event of `c1Inputs`. -/
def c1OpenEv2 : Event :=
  ⟨.OPEN, .SIGNAL_DETECTED, ⟨some 98000, some 100700, some 100000, some 101000, some false, 3⟩,
   some .LONG, some 100000, some 100700, some 98000, some 101000, none, none, none, none⟩

/-- The OPEN event of the end-to-end scenario. -/
def scenOpenEv : Event :=
  ⟨.OPEN, .SIGNAL_DETECTED, ⟨some 98000, some 100700, some 100000, some 101000, some false, 1⟩,
   some .LONG, some 100000, some 100700, some 98000, some 101000, none, none, none, none⟩

/-- The trailing-activation UPDATE event of the end-to-end scenario. -/
def scenActEv : Event :=
  ⟨.UPDATE, .TRAILING_STOP_ACTIVATED, ⟨some 100100, some 100700, some 100000, some 101000, some true, 2⟩,
   some .LONG, some 100000, none, some 100100, none, some 101000, some 101000, none, none⟩

/-- The stop-loss CLOSE event of the end-to-end scenario. -/
def scenCloseEv : Event :=
  ⟨.CLOSE, .STOP_LOSS_HIT, Snap.emptySeq 3,
   some .LONG, some 100000, none, some 100100, none, none, some 100050,
   some 50, some (1/20)⟩

/-- The signal stored in `sLong`. -/
def sigLong : Signal := ⟨.LONG, 100000, 98000, 100700, 101000, 0⟩

/-- A trailing-active LONG state: entry 100000, peak 101000, stop tightened
to 100100 (= peak - trailing distance), as after the scenario's
activation step. -/
def sTrail : StrategyS :=
  { event_counter := 2
    active_signal := some ⟨.LONG, 100000, 100100, 100700, 101000, 0⟩
    trailing_stop_active := true
    peak_price := some 101000
    strategy_state := ⟨some 100100, some 100700, some 100000, some 101000, some true, 2⟩
    state_sequence := 2 }

/-- The signal stored in `sTrail`. -/
def sigTrail : Signal := ⟨.LONG, 100000, 100100, 100700, 101000, 0⟩

/-- The signal after a trailing update of `sTrail` at tick price 101500. -/
def sigTrail2 : Signal := ⟨.LONG, 100000, 100600, 100700, 101000, 0⟩

/-! ## Helper lemmas -/

theorem updateStrategyState_state_sequence (s : StrategyS) :
    (updateStrategyState s).state_sequence = s.state_sequence + 1 := by
  unfold updateStrategyState
  cases s.active_signal <;> rfl

theorem updateStrategyState_snap_seq (s : StrategyS) :
    (updateStrategyState s).strategy_state.seq = s.state_sequence + 1 := by
  unfold updateStrategyState
  cases s.active_signal <;> rfl

theorem updateStrategyState_active_signal (s : StrategyS) :
    (updateStrategyState s).active_signal = s.active_signal := by
  unfold updateStrategyState
  cases s.active_signal <;> rfl

theorem updateStrategyState_trailing (s : StrategyS) :
    (updateStrategyState s).trailing_stop_active = s.trailing_stop_active := by
  unfold updateStrategyState
  cases s.active_signal <;> rfl

theorem updateStrategyState_peak (s : StrategyS) :
    (updateStrategyState s).peak_price = s.peak_price := by
  unfold updateStrategyState
  cases s.active_signal <;> rfl

theorem updateTestState_state_sequence (s : TestS) :
    (updateTestState s).state_sequence = s.state_sequence + 1 := by
  unfold updateTestState
  split <;> rfl

/-- A `check_signal_trigger` call that emits no event leaves the state
untouched. -/
theorem check_signal_trigger_none_eq (P : Params) (now : ℚ) (pred : Prediction)
    (t : Tick) (s : StrategyS) :
    (check_signal_trigger P now pred t s).2 = none →
    check_signal_trigger P now pred t s = (s, none) := by
  rcases hA : s.active_signal with _ | sig
  · rcases hT : pred.prediction_time with _ | nyt
    · simp [check_signal_trigger, hA, hT]
    · rcases hF : floatOfField t.p with _ | q
      · simp [check_signal_trigger, hA, hT, hF]
      · by_cases hd : |pred.predicted_price.getD 0 - pred.prediction_price.getD 0| ≤ P.delta
        · simp [check_signal_trigger, hA, hT, hF, hd]
        · by_cases hsf : P.session_filter ∧
              (5 ≤ nyt.weekday ∨ nyt.hour < 8 ∨ 11 ≤ nyt.hour)
          · simp [check_signal_trigger, hA, hT, hF, hd, hsf]
          · simp [check_signal_trigger, hA, hT, hF, hd, hsf]
  · simp [check_signal_trigger, hA]

/-- A `check_signal_trigger` call that emits an event: the state had no
active signal, the event is an `OPEN`, the new state has an active signal,
trailing is off, and the sequence advanced by exactly one with the event
carrying the new snapshot. -/
theorem check_signal_trigger_some (P : Params) (now : ℚ) (pred : Prediction)
    (t : Tick) (s : StrategyS) (e : Event) :
    (check_signal_trigger P now pred t s).2 = some e →
    s.active_signal = none ∧ e.position = .OPEN ∧
    (check_signal_trigger P now pred t s).1.active_signal.isSome = true ∧
    (check_signal_trigger P now pred t s).1.trailing_stop_active = false ∧
    (check_signal_trigger P now pred t s).1.state_sequence = s.state_sequence + 1 ∧
    e.snap = (check_signal_trigger P now pred t s).1.strategy_state ∧
    e.snap.seq = s.state_sequence + 1 := by
  rcases hA : s.active_signal with _ | sig
  · rcases hT : pred.prediction_time with _ | nyt
    · simp [check_signal_trigger, hA, hT]
    · rcases hF : floatOfField t.p with _ | q
      · simp [check_signal_trigger, hA, hT, hF]
      · by_cases hd : |pred.predicted_price.getD 0 - pred.prediction_price.getD 0| ≤ P.delta
        · simp [check_signal_trigger, hA, hT, hF, hd]
        · by_cases hsf : P.session_filter ∧
              (5 ≤ nyt.weekday ∨ nyt.hour < 8 ∨ 11 ≤ nyt.hour)
          · simp [check_signal_trigger, hA, hT, hF, hd, hsf]
          · intro h
            refine ⟨rfl, ?_⟩
            simp only [check_signal_trigger, hA, hT, hF, hd, hsf] at h ⊢
            simp only [Option.isSome_none, Bool.false_eq_true, if_false,
              Option.some.injEq] at h ⊢
            subst h
            simp [updateStrategyState_active_signal, updateStrategyState_trailing,
              updateStrategyState_state_sequence, updateStrategyState_snap_seq]
  · simp [check_signal_trigger, hA]

/-- Calling `close_position` on a state with an active signal: the position is
cleared, the sequence advances by one, and a `CLOSE` event carrying the
new (empty) snapshot is emitted. -/
theorem close_position_spec (x : ℚ) (r : Reason) (s : StrategyS) (sig : Signal)
    (h : s.active_signal = some sig) :
    (close_position x r s).1.active_signal = none ∧
    (close_position x r s).1.trailing_stop_active = false ∧
    (close_position x r s).1.state_sequence = s.state_sequence + 1 ∧
    ∃ e, (close_position x r s).2 = some e ∧ e.position = .CLOSE ∧
      e.snap = (close_position x r s).1.strategy_state ∧
      e.snap.seq = s.state_sequence + 1 := by
  simp [close_position, h, updateStrategyState_active_signal,
    updateStrategyState_trailing, updateStrategyState_state_sequence,
    updateStrategyState_snap_seq]

/-- A `check_position_management` call that emits no event leaves the
state untouched. -/
theorem check_position_management_none_eq (P : Params) (now : ℚ) (t : Tick)
    (s : StrategyS) :
    (check_position_management P now t s).2 = none →
    check_position_management P now t s = (s, none) := by
  rcases hA : s.active_signal with _ | sig
  · simp [check_position_management, hA]
  rcases hF : floatOfField t.p with _ | cp
  · simp [check_position_management, hA, hF]
  by_cases ht : P.max_position_duration_hours < now - sig.entry_time
  · simp [check_position_management, hA, hF, ht]
  rcases hdir : sig.direction
  · -- LONG
    by_cases hsl : cp ≤ sig.stop_loss
    · simp [check_position_management, hA, hF, ht, hdir, hsl, close_position]
    cases htr : s.trailing_stop_active
    · by_cases hact : sig.trailing_activation_price ≤ cp
      · simp [check_position_management, hA, hF, ht, hdir, hsl, htr, hact]
      · simp [check_position_management, hA, hF, ht, hdir, hsl, htr, hact]
    · rcases hpk : s.peak_price with _ | pk
      · simp [check_position_management, hA, hF, ht, hdir, hsl, htr, hpk]
      by_cases hlt : pk < cp
      · simp [check_position_management, hA, hF, ht, hdir, hsl, htr, hpk, hlt]
      · simp [check_position_management, hA, hF, ht, hdir, hsl, htr, hpk, hlt]
  · -- SHORT
    by_cases hsl : sig.stop_loss ≤ cp
    · simp [check_position_management, hA, hF, ht, hdir, hsl, close_position]
    cases htr : s.trailing_stop_active
    · by_cases hact : cp ≤ sig.trailing_activation_price
      · simp [check_position_management, hA, hF, ht, hdir, hsl, htr, hact]
      · simp [check_position_management, hA, hF, ht, hdir, hsl, htr, hact]
    · rcases hpk : s.peak_price with _ | pk
      · simp [check_position_management, hA, hF, ht, hdir, hsl, htr, hpk]
      by_cases hlt : cp < pk
      · simp [check_position_management, hA, hF, ht, hdir, hsl, htr, hpk, hlt]
      · simp [check_position_management, hA, hF, ht, hdir, hsl, htr, hpk, hlt]

/-- A `check_position_management` call that emits an event: there was an
active signal, the sequence advances by exactly one with the event
carrying the new snapshot, and the event is either a `CLOSE` (clearing
the position) or an `UPDATE` (trailing activation or trailing update,
setting the stop to `tick price ∓ trailing_stop_distance` and the peak to
the tick price; when trailing was already active the tick price strictly
improved on the stored peak). -/
theorem check_position_management_some (P : Params) (now : ℚ) (t : Tick)
    (s : StrategyS) (e : Event) :
    (check_position_management P now t s).2 = some e →
    ∃ sig, s.active_signal = some sig ∧
      (check_position_management P now t s).1.state_sequence = s.state_sequence + 1 ∧
      e.snap = (check_position_management P now t s).1.strategy_state ∧
      e.snap.seq = s.state_sequence + 1 ∧
      ((e.position = .CLOSE ∧
        (check_position_management P now t s).1.active_signal = none ∧
        (check_position_management P now t s).1.trailing_stop_active = false) ∨
       (e.position = .UPDATE ∧ ∃ cp : ℚ,
          floatOfField t.p = some cp ∧
          (check_position_management P now t s).1.trailing_stop_active = true ∧
          (check_position_management P now t s).1.peak_price = some cp ∧
          (check_position_management P now t s).1.active_signal =
            some { sig with stop_loss :=
              if sig.direction = Dir.LONG then cp - P.trailing_stop_distance
              else cp + P.trailing_stop_distance } ∧
          (s.trailing_stop_active = true → ∃ pk, s.peak_price = some pk ∧
            (if sig.direction = Dir.LONG then pk < cp else cp < pk)))) := by
  rcases hA : s.active_signal with _ | sig
  · simp [check_position_management, hA]
  rcases hF : floatOfField t.p with _ | cp
  · simp [check_position_management, hA, hF]
  by_cases ht : P.max_position_duration_hours < now - sig.entry_time
  · intro h
    refine ⟨sig, rfl, ?_⟩
    simp only [check_position_management, hA, hF, ht, if_true, if_pos,
      Option.some.injEq] at h ⊢
    subst h
    simp [updateStrategyState_active_signal, updateStrategyState_trailing,
      updateStrategyState_state_sequence, updateStrategyState_snap_seq]
  rcases hdir : sig.direction
  · -- LONG
    by_cases hsl : cp ≤ sig.stop_loss
    · intro h
      refine ⟨sig, rfl, ?_⟩
      have hcp := close_position_spec cp .STOP_LOSS_HIT s sig hA
      simp only [check_position_management, reduceCtorEq, hA, hF, ht, hdir, hsl] at h ⊢
      simp only [if_true, if_false, if_pos, if_neg, reduceIte] at h ⊢
      obtain ⟨h1, h2, h3, e', he', hp', hs', hq'⟩ := hcp
      rw [he'] at h
      obtain rfl : e' = e := by simpa using h
      exact ⟨h3, hs', hq', Or.inl ⟨hp', h1, h2⟩⟩
    cases htr : s.trailing_stop_active
    · by_cases hact : sig.trailing_activation_price ≤ cp
      · intro h
        refine ⟨sig, rfl, ?_⟩
        simp only [check_position_management, reduceCtorEq, hA, hF, ht, hdir, hsl, htr, hact] at h ⊢
        simp only [Bool.false_eq_true, if_false, if_true, reduceIte,
          Option.some.injEq] at h ⊢
        subst h
        simp [updateStrategyState_state_sequence, updateStrategyState_snap_seq,
          updateStrategyState_trailing, updateStrategyState_peak,
          updateStrategyState_active_signal]
      · simp [check_position_management, hA, hF, ht, hdir, hsl, htr, hact]
    · rcases hpk : s.peak_price with _ | pk
      · simp [check_position_management, hA, hF, ht, hdir, hsl, htr, hpk]
      by_cases hlt : pk < cp
      · intro h
        refine ⟨sig, rfl, ?_⟩
        simp only [check_position_management, reduceCtorEq, hA, hF, ht, hdir, hsl, htr, hpk, hlt] at h ⊢
        simp only [Bool.false_eq_true, if_false, if_true, reduceIte,
          Option.some.injEq] at h ⊢
        subst h
        simp [updateStrategyState_state_sequence, updateStrategyState_snap_seq,
          updateStrategyState_trailing, updateStrategyState_peak,
          updateStrategyState_active_signal, htr, hpk, hlt]
      · simp [check_position_management, hA, hF, ht, hdir, hsl, htr, hpk, hlt]
  · -- SHORT
    by_cases hsl : sig.stop_loss ≤ cp
    · intro h
      refine ⟨sig, rfl, ?_⟩
      have hcp := close_position_spec cp .STOP_LOSS_HIT s sig hA
      simp only [check_position_management, reduceCtorEq, hA, hF, ht, hdir, hsl] at h ⊢
      simp only [if_true, if_false, if_pos, if_neg, reduceIte] at h ⊢
      obtain ⟨h1, h2, h3, e', he', hp', hs', hq'⟩ := hcp
      rw [he'] at h
      obtain rfl : e' = e := by simpa using h
      exact ⟨h3, hs', hq', Or.inl ⟨hp', h1, h2⟩⟩
    cases htr : s.trailing_stop_active
    · by_cases hact : cp ≤ sig.trailing_activation_price
      · intro h
        refine ⟨sig, rfl, ?_⟩
        simp only [check_position_management, reduceCtorEq, hA, hF, ht, hdir, hsl, htr, hact] at h ⊢
        simp only [Bool.false_eq_true, if_false, if_true, reduceIte,
          Option.some.injEq] at h ⊢
        subst h
        simp [updateStrategyState_state_sequence, updateStrategyState_snap_seq,
          updateStrategyState_trailing, updateStrategyState_peak,
          updateStrategyState_active_signal]
      · simp [check_position_management, hA, hF, ht, hdir, hsl, htr, hact]
    · rcases hpk : s.peak_price with _ | pk
      · simp [check_position_management, hA, hF, ht, hdir, hsl, htr, hpk]
      by_cases hlt : cp < pk
      · intro h
        refine ⟨sig, rfl, ?_⟩
        simp only [check_position_management, reduceCtorEq, hA, hF, ht, hdir, hsl, htr, hpk, hlt] at h ⊢
        simp only [Bool.false_eq_true, if_false, if_true, reduceIte,
          Option.some.injEq] at h ⊢
        subst h
        simp [updateStrategyState_state_sequence, updateStrategyState_snap_seq,
          updateStrategyState_trailing, updateStrategyState_peak,
          updateStrategyState_active_signal, htr, hpk, hlt]
      · simp [check_position_management, hA, hF, ht, hdir, hsl, htr, hpk, hlt]

/-- A step that emits no event leaves the state untouched. -/
theorem step_none_eq (P : Params) (i : Input) (s : StrategyS) :
    (step P i s).2 = none → (step P i s).1 = s := by
  cases i with
  | prediction now pred t =>
      intro h
      exact congrArg Prod.fst (check_signal_trigger_none_eq P now pred t s h)
  | tick now t =>
      intro h
      exact congrArg Prod.fst (check_position_management_none_eq P now t s h)

/-- A step that emits an event advances the sequence by exactly one and
stamps the event's snapshot with the new sequence number. -/
theorem step_some_seq (P : Params) (i : Input) (s : StrategyS) (e : Event) :
    (step P i s).2 = some e →
    (step P i s).1.state_sequence = s.state_sequence + 1 ∧
    e.snap.seq = s.state_sequence + 1 := by
  cases i with
  | prediction now pred t =>
      intro h
      obtain ⟨-, -, -, -, h5, -, h7⟩ := check_signal_trigger_some P now pred t s e h
      exact ⟨h5, h7⟩
  | tick now t =>
      intro h
      obtain ⟨sig, -, h2, -, h4, -⟩ := check_position_management_some P now t s e h
      exact ⟨h2, h4⟩

/-- How the event tag of an emitted event relates the presence of an
active signal before and after the step: `OPEN` goes from no position to a
position, `CLOSE` ends with no position, `UPDATE` preserves a present
position. -/
theorem step_some_tags (P : Params) (i : Input) (s : StrategyS) (e : Event) :
    (step P i s).2 = some e →
    (e.position = .OPEN →
      s.active_signal = none ∧ (step P i s).1.active_signal.isSome = true) ∧
    (e.position = .CLOSE → (step P i s).1.active_signal = none) ∧
    (e.position = .UPDATE →
      s.active_signal.isSome = true ∧ (step P i s).1.active_signal.isSome = true) := by
  cases i with
  | prediction now pred t =>
      intro h
      obtain ⟨h1, h2, h3, -⟩ := check_signal_trigger_some P now pred t s e h
      refine ⟨fun _ => ⟨h1, h3⟩, fun hc => ?_, fun hc => ?_⟩
      · rw [h2] at hc; cases hc
      · rw [h2] at hc; cases hc
  | tick now t =>
      intro h
      simp only [step] at h ⊢
      obtain ⟨sig, hA, -, -, -, hdisj⟩ := check_position_management_some P now t s e h
      rcases hdisj with ⟨hp, hnone, -⟩ | ⟨hp, cp, -, -, -, hact, -⟩
      · refine ⟨fun hc => ?_, fun _ => hnone, fun hc => ?_⟩
        · rw [hp] at hc; cases hc
        · rw [hp] at hc; cases hc
      · refine ⟨fun hc => ?_, fun hc => ?_, fun _ => ?_⟩
        · rw [hp] at hc; cases hc
        · rw [hp] at hc; cases hc
        · exact ⟨by rw [hA]; rfl, by rw [hact]; rfl⟩

/-- The sequence number never decreases across a step. -/
theorem step_seq_le (P : Params) (i : Input) (s : StrategyS) :
    s.state_sequence ≤ (step P i s).1.state_sequence := by
  rcases hst : (step P i s).2 with _ | e
  · rw [step_none_eq P i s hst]
  · have := (step_some_seq P i s e hst).1
    omega

/-- The sequence number never decreases across a run. -/
theorem run_seq_le (P : Params) (is : List Input) (s : StrategyS) :
    s.state_sequence ≤ (run P is s).1.state_sequence := by
  induction is generalizing s with
  | nil => simp [run]
  | cons i is ih =>
      have h1 := step_seq_le P i s
      have h2 := ih (step P i s).1
      simp only [run]
      omega

/-- Every event emitted during a run carries a snapshot sequence number
strictly greater than the starting sequence number. -/
theorem run_events_seq_gt (P : Params) (is : List Input) (s : StrategyS) :
    ∀ e ∈ (run P is s).2, s.state_sequence < e.snap.seq := by
  induction is generalizing s with
  | nil => simp [run]
  | cons i is ih =>
      intro e he
      simp only [run, List.mem_append] at he
      rcases he with he | he
      · rcases hst : (step P i s).2 with _ | ev
        · rw [hst] at he; simp at he
        · rw [hst] at he
          simp only [Option.toList_some, List.mem_singleton] at he
          subst he
          have := (step_some_seq P i s e hst).2
          omega
      · have h1 := ih (step P i s).1 e he
        have h2 := step_seq_le P i s
        omega

/-- The snapshot sequence numbers of the events of a run are strictly
increasing along the run. -/
theorem run_seq_pairwise (P : Params) (is : List Input) (s : StrategyS) :
    ((run P is s).2.map fun e => e.snap.seq).Pairwise (· < ·) := by
  induction is generalizing s with
  | nil => simp [run]
  | cons i is ih =>
      rcases hst : (step P i s).2 with _ | ev
      · have hre : (run P (i :: is) s).2 = (run P is (step P i s).1).2 := by
          simp [run, hst]
        rw [hre]
        exact ih _
      · have hre : (run P (i :: is) s).2 = ev :: (run P is (step P i s).1).2 := by
          simp [run, hst]
        rw [hre, List.map_cons]
        refine List.Pairwise.cons ?_ (ih _)
        intro n hn
        simp only [List.mem_map] at hn
        obtain ⟨e', he', rfl⟩ := hn
        have h1 := run_events_seq_gt P is (step P i s).1 e' he'
        have h2 := (step_some_seq P i s ev hst).1
        have h3 := (step_some_seq P i s ev hst).2
        omega

/-- The event trace of any run is accepted by the open/close alternation
automaton started at "a position is open iff the starting state has an
active signal". -/
theorem altFrom_run (P : Params) (is : List Input) (s : StrategyS) :
    altFrom s.active_signal.isSome (run P is s).2 := by
  induction is generalizing s with
  | nil => simp [run, altFrom]
  | cons i is ih =>
      rcases hst : (step P i s).2 with _ | ev
      · have hre : (run P (i :: is) s).2 = (run P is (step P i s).1).2 := by
          simp [run, hst]
        rw [hre, step_none_eq P i s hst]
        have := ih (step P i s).1
        rwa [step_none_eq P i s hst] at this
      · have hre : (run P (i :: is) s).2 = ev :: (run P is (step P i s).1).2 := by
          simp [run, hst]
        rw [hre]
        have htags := step_some_tags P i s ev hst
        have hih := ih (step P i s).1
        rcases hpos : ev.position with _ | _ | _
        · -- OPEN
          obtain ⟨hnone, hsome⟩ := htags.1 hpos
          simp only [altFrom, hpos]
          refine ⟨by rw [hnone]; rfl, ?_⟩
          rwa [hsome] at hih
        · -- UPDATE
          obtain ⟨hpre, hsome⟩ := htags.2.2 hpos
          simp only [altFrom, hpos]
          rw [hpre]
          rwa [hsome] at hih
        · -- CLOSE
          have hnone := htags.2.1 hpos
          simp only [altFrom, hpos]
          rwa [hnone] at hih

/-- Dropping a prefix of an accepted trace leaves a trace accepted from
some automaton state. -/
theorem altFrom_suffix (b : Bool) (a rest : List Event) :
    altFrom b (a ++ rest) → ∃ b', altFrom b' rest := by
  induction a generalizing b with
  | nil => exact fun h => ⟨b, h⟩
  | cons e a ih =>
      intro h
      rcases hp : e.position with _ | _ | _
      · simp only [List.cons_append, altFrom, hp] at h
        exact ih true h.2
      · simp only [List.cons_append, altFrom, hp] at h
        exact ih b h
      · simp only [List.cons_append, altFrom, hp] at h
        exact ih false h

/-- In a trace accepted with a position already open, an `OPEN` event can
only occur after an intervening `CLOSE`. -/
theorem altFrom_open_mid (c d : List Event) (e2 : Event) :
    altFrom true (c ++ e2 :: d) → e2.position = .OPEN →
    ∃ x ∈ c, x.position = .CLOSE := by
  induction c with
  | nil =>
      intro h hp
      simp only [List.nil_append, altFrom, hp] at h
      exact absurd h.1 (by simp)
  | cons x c ih =>
      intro h hp
      rcases hx : x.position with _ | _ | _
      · simp only [List.cons_append, altFrom, hx] at h
        exact absurd h.1 (by simp)
      · simp only [List.cons_append, altFrom, hx] at h
        obtain ⟨y, hy, hyc⟩ := ih h hp
        exact ⟨y, List.mem_cons_of_mem x hy, hyc⟩
      · exact ⟨x, List.mem_cons_self x c, hx⟩

/-- In any accepted trace, two `OPEN` events are separated by a `CLOSE`. -/
theorem altFrom_no_double_open (b : Bool) (a c d : List Event) (e1 e2 : Event) :
    altFrom b (a ++ e1 :: (c ++ e2 :: d)) →
    e1.position = .OPEN → e2.position = .OPEN →
    ∃ x ∈ c, x.position = .CLOSE := by
  intro h h1 h2
  obtain ⟨b', hb'⟩ := altFrom_suffix b a (e1 :: (c ++ e2 :: d)) h
  simp only [altFrom, h1] at hb'
  exact altFrom_open_mid c d e2 hb'.2 h2

/-- Every step preserves the trailing-stop/peak invariant. -/
theorem step_trailingInv (P : Params) (i : Input) (s : StrategyS) :
    trailingInv P s → trailingInv P (step P i s).1 := by
  intro hInv
  rcases hst : (step P i s).2 with _ | ev
  · rw [step_none_eq P i s hst]
    exact hInv
  · cases i with
    | prediction now pred t =>
        simp only [step] at hst ⊢
        obtain ⟨-, -, -, h4, -⟩ := check_signal_trigger_some P now pred t s ev hst
        intro sig0 hs0 htr0
        rw [h4] at htr0
        cases htr0
    | tick now t =>
        simp only [step] at hst ⊢
        obtain ⟨sig, hA, -, -, -, hdisj⟩ :=
          check_position_management_some P now t s ev hst
        intro sig0 hs0 htr0
        rcases hdisj with ⟨-, hnone, -⟩ | ⟨-, cp, -, -, hpk, hact, -⟩
        · rw [hnone] at hs0
          cases hs0
        · rw [hact] at hs0
          obtain rfl := Option.some.inj hs0
          exact ⟨cp, hpk, by rcases sig.direction <;> simp⟩

/-- On a trailing-active state satisfying the invariant, a position-manager
tick never loosens the stored stop: for LONG it only goes up, for SHORT it
only goes down. -/
theorem tick_stop_tightens (P : Params) (now : ℚ) (t : Tick) (s : StrategyS)
    (sig sig2 : Signal) (hInv : trailingInv P s)
    (htr : s.trailing_stop_active = true)
    (hA : s.active_signal = some sig)
    (hA2 : (check_position_management P now t s).1.active_signal = some sig2) :
    (sig.direction = Dir.LONG → sig.stop_loss ≤ sig2.stop_loss) ∧
    (sig.direction = Dir.SHORT → sig2.stop_loss ≤ sig.stop_loss) := by
  rcases hst : (check_position_management P now t s).2 with _ | ev
  · rw [check_position_management_none_eq P now t s hst] at hA2
    rw [hA] at hA2
    obtain rfl := Option.some.inj hA2
    exact ⟨fun _ => le_refl _, fun _ => le_refl _⟩
  · obtain ⟨sig', hA', -, -, -, hdisj⟩ :=
      check_position_management_some P now t s ev hst
    rw [hA] at hA'
    obtain rfl := Option.some.inj hA'
    rcases hdisj with ⟨-, hnone, -⟩ | ⟨-, cp, -, -, -, hact, himp⟩
    · rw [hnone] at hA2
      cases hA2
    · rw [hact] at hA2
      obtain rfl := Option.some.inj hA2
      obtain ⟨pk, hpk, hlt⟩ := himp htr
      obtain ⟨pk2, hpk2, hsl⟩ := hInv sig hA htr
      rw [hpk] at hpk2
      obtain rfl := Option.some.inj hpk2
      constructor
      · intro hd
        simp [hd] at hlt hsl ⊢
        linarith
      · intro hd
        simp [hd] at hlt hsl ⊢
        linarith

theorem updateTestState_frozen (s : TestS) :
    (updateTestState s).offline_frozen_state = s.offline_frozen_state := by
  unfold updateTestState
  split <;> rfl

theorem broadcast_tsu_frozen (b : Bool) (cp : ℚ) (r : Reason) (s : TestS) :
    (broadcast_trailing_stop_update b cp r s).1.offline_frozen_state =
      s.offline_frozen_state := by
  cases b <;> simp [broadcast_trailing_stop_update, updateTestState_frozen]

/-- The test strategy's internal tick processing never touches the
captured offline snapshot. -/
theorem check_trailing_stop_frozen (TP : TestParams) (b : Bool) (cp : ℚ)
    (s : TestS) :
    (check_trailing_stop TP b cp s).1.offline_frozen_state =
      s.offline_frozen_state := by
  unfold check_trailing_stop
  split
  · rfl
  · split
    · split
      · simp [broadcast_tsu_frozen]
      · split
        · simp [broadcast_tsu_frozen]
        · rfl
    · split
      · simp [broadcast_tsu_frozen]
      · split
        · simp [broadcast_tsu_frozen]
        · rfl

/-- If no position is active, the prediction time parses, the tick price
reads, the delta threshold is strictly exceeded, and the session filter
(when enabled) admits the prediction's New-York local time, then
`check_signal_trigger` emits an OPEN event and stores a position. -/
theorem check_signal_trigger_opens (P : Params) (now : ℚ) (pred : Prediction)
    (t : Tick) (s : StrategyS) (nyt : NYTime) (q : ℚ)
    (hA : s.active_signal = none)
    (hT : pred.prediction_time = some nyt)
    (hF : floatOfField t.p = some q)
    (hd : P.delta < |pred.predicted_price.getD 0 - pred.prediction_price.getD 0|)
    (hsess : P.session_filter = true →
      nyt.weekday < 5 ∧ 8 ≤ nyt.hour ∧ nyt.hour < 11) :
    ∃ e, (check_signal_trigger P now pred t s).2 = some e ∧
      e.position = .OPEN ∧
      (check_signal_trigger P now pred t s).1.active_signal.isSome = true := by
  have hnd : ¬ |pred.predicted_price.getD 0 - pred.prediction_price.getD 0| ≤
      P.delta := not_le.mpr hd
  have hns : ¬ (P.session_filter ∧
      (5 ≤ nyt.weekday ∨ nyt.hour < 8 ∨ 11 ≤ nyt.hour)) := by
    rintro ⟨hsf, hbad⟩
    obtain ⟨h1, h2, h3⟩ := hsess hsf
    rcases hbad with h | h | h <;> omega
  simp [check_signal_trigger, hA, hT, hF, hnd, hns,
    updateStrategyState_active_signal]

/-! ## Claim theorems -/

/-- C1: at most one Position exists at any time — `check_signal_trigger`
is a no-op (no state change, no event) whenever `active_signal` is already
set, and consequently, for every sequence of tick and prediction inputs,
two OPEN events never occur in the emitted trace without an intervening
CLOSE event between them. -/
theorem C1_at_most_one_position (P : Params) :
    (∀ (now : ℚ) (pred : Prediction) (t : Tick) (s : StrategyS),
        s.active_signal.isSome = true →
        check_signal_trigger P now pred t s = (s, none)) ∧
    (∀ (inputs : List Input) (s : StrategyS) (a c d : List Event)
        (e1 e2 : Event),
        (run P inputs s).2 = a ++ e1 :: (c ++ e2 :: d) →
        e1.position = .OPEN → e2.position = .OPEN →
        ∃ x ∈ c, x.position = .CLOSE) := by
  constructor
  · intro now pred t s h
    simp [check_signal_trigger, h]
  · intro inputs s a c d e1 e2 hdec h1 h2
    have hacc := altFrom_run P inputs s
    rw [hdec] at hacc
    exact altFrom_no_double_open _ a c d e1 e2 hacc h1 h2

/-- Witness for C1: on the open-LONG state `sLong` the trigger is a no-op,
and in the concrete OPEN/CLOSE/OPEN trace of `c1Inputs` the two OPEN
events have a CLOSE between them. -/
theorem C1_witness :
    check_signal_trigger P0 0 ⟨some 100000, some 100700, some ⟨2, 9, 30, 0⟩⟩
      ⟨.num 100000⟩ sLong = (sLong, none) ∧
    ∃ x ∈ [c1CloseEv], x.position = PosTag.CLOSE := by
  constructor
  · exact (C1_at_most_one_position P0).1 0
      ⟨some 100000, some 100700, some ⟨2, 9, 30, 0⟩⟩ ⟨.num 100000⟩ sLong
      (by decide)
  · exact (C1_at_most_one_position P0).2 c1Inputs initState [] [c1CloseEv] []
      c1OpenEv1 c1OpenEv2 (by decide) (by decide) (by decide)

/-- C2: the sequence number is strictly increasing — every snapshot
rebuild (`_update_strategy_state` of either strategy variant, reached by
open, trailing activation, trailing update, close and reset) increments
`seq` by exactly one, every event-emitting step advances the state's
sequence by exactly one and stamps the event with it, and along any run
the sequence numbers of the published snapshots are strictly increasing. -/
theorem C2_seq_strictly_increasing (P : Params) :
    (∀ s : StrategyS,
        (updateStrategyState s).state_sequence = s.state_sequence + 1) ∧
    (∀ s : TestS,
        (updateTestState s).state_sequence = s.state_sequence + 1) ∧
    (∀ (i : Input) (s : StrategyS) (e : Event),
        (step P i s).2 = some e →
        (step P i s).1.state_sequence = s.state_sequence + 1 ∧
        e.snap.seq = s.state_sequence + 1) ∧
    (∀ (inputs : List Input) (s : StrategyS),
        ((run P inputs s).2.map fun e => e.snap.seq).Pairwise (· < ·)) :=
  ⟨updateStrategyState_state_sequence, updateTestState_state_sequence,
   fun i s e h => step_some_seq P i s e h,
   fun inputs s => run_seq_pairwise P inputs s⟩

/-- Witness for C2: the stop-loss close of `sLong` advances the sequence
from 1 to 2 and stamps the CLOSE event with 2. -/
theorem C2_witness :
    (step P0 (Input.tick 0 ⟨TickField.num 90000⟩) sLong).1.state_sequence =
      sLong.state_sequence + 1 ∧
    c1CloseEv.snap.seq = sLong.state_sequence + 1 :=
  (C2_seq_strictly_increasing P0).2.2.1 (Input.tick 0 ⟨TickField.num 90000⟩)
    sLong c1CloseEv (by decide)

/-- C3: the end-to-end scenario — with delta 500, initial stop 2000,
trailing offset 1000, trailing distance 900 and the session filter off,
the prediction 100000→100700 with latest tick 100000 produces an OPEN
LONG (entry 100000, stop 98000, activation 101000, target 100700, seq 1);
the tick at 101000 produces UPDATE/TRAILING_STOP_ACTIVATED (peak 101000,
stop 100100, seq 2); the tick at 100050 produces CLOSE/STOP_LOSS_HIT
(pnl 50, pnl_pct 0.05, seq 3) and the position is then absent. -/
theorem C3_end_to_end_scenario :
    (run P0 scenarioInputs initState).2 = [scenOpenEv, scenActEv, scenCloseEv] ∧
    scenOpenEv.position = .OPEN ∧ scenOpenEv.direction = some .LONG ∧
    scenOpenEv.entry_price = some 100000 ∧
    scenOpenEv.stop_loss_price = some 98000 ∧
    scenOpenEv.trailing_activation_price = some 101000 ∧
    scenOpenEv.predicted_price = some 100700 ∧ scenOpenEv.snap.seq = 1 ∧
    scenActEv.position = .UPDATE ∧
    scenActEv.reason = .TRAILING_STOP_ACTIVATED ∧
    scenActEv.peak_price = some 101000 ∧
    scenActEv.stop_loss_price = some 100100 ∧ scenActEv.snap.seq = 2 ∧
    scenCloseEv.position = .CLOSE ∧ scenCloseEv.reason = .STOP_LOSS_HIT ∧
    scenCloseEv.pnl = some 50 ∧ scenCloseEv.pnl_pct = some (1/20) ∧
    scenCloseEv.snap.seq = 3 ∧
    (run P0 scenarioInputs initState).1.active_signal = none := by
  decide

/-- C4: trailing-stop monotonic tightening — the invariant
`stop_loss = peak ∓ trailing_stop_distance` (which holds whenever trailing
is active) is preserved by every step, and on any trailing-active state
satisfying it a position-manager tick never loosens the stored stop: for
a LONG position the new stop is `≥` the previous one, for a SHORT
position `≤`. -/
theorem C4_trailing_stop_monotonic (P : Params) :
    (∀ (i : Input) (s : StrategyS),
        trailingInv P s → trailingInv P (step P i s).1) ∧
    (∀ (now : ℚ) (t : Tick) (s : StrategyS) (sig sig2 : Signal),
        trailingInv P s → s.trailing_stop_active = true →
        s.active_signal = some sig →
        (check_position_management P now t s).1.active_signal = some sig2 →
        (sig.direction = Dir.LONG → sig.stop_loss ≤ sig2.stop_loss) ∧
        (sig.direction = Dir.SHORT → sig2.stop_loss ≤ sig.stop_loss)) :=
  ⟨fun i s h => step_trailingInv P i s h,
   fun now t s sig sig2 h1 h2 h3 h4 =>
     tick_stop_tightens P now t s sig sig2 h1 h2 h3 h4⟩

/-- Witness for C4: a tick at 101500 on the trailing-active state
`sTrail` moves the LONG stop from 100100 up to 100600, never down. -/
theorem C4_witness :
    (sigTrail.direction = Dir.LONG →
      sigTrail.stop_loss ≤ sigTrail2.stop_loss) ∧
    (sigTrail.direction = Dir.SHORT →
      sigTrail2.stop_loss ≤ sigTrail.stop_loss) :=
  (C4_trailing_stop_monotonic P0).2 0 ⟨TickField.num 101500⟩ sTrail
    sigTrail sigTrail2
    (by
      intro sig hs _
      have h : sigTrail = sig := Option.some.inj hs
      exact ⟨101000, rfl, by rw [← h]; decide⟩)
    rfl rfl (by decide)

/-- C5: the delta-threshold boundary is strict — a prediction whose
absolute price difference equals `delta` exactly produces no signal and
no state change, while one whose difference strictly exceeds `delta`
does open a position (provided no position is active, the prediction
time parses, the tick price reads, and the session filter permits). -/
theorem C5_delta_threshold_strict (P : Params) :
    (∀ (now : ℚ) (pred : Prediction) (t : Tick) (s : StrategyS),
        |pred.predicted_price.getD 0 - pred.prediction_price.getD 0| =
          P.delta →
        check_signal_trigger P now pred t s = (s, none)) ∧
    (∀ (now : ℚ) (pred : Prediction) (t : Tick) (s : StrategyS)
        (nyt : NYTime) (q : ℚ),
        s.active_signal = none →
        pred.prediction_time = some nyt →
        floatOfField t.p = some q →
        P.delta < |pred.predicted_price.getD 0 - pred.prediction_price.getD 0| →
        (P.session_filter = true →
          nyt.weekday < 5 ∧ 8 ≤ nyt.hour ∧ nyt.hour < 11) →
        ∃ e, (check_signal_trigger P now pred t s).2 = some e ∧
          e.position = .OPEN ∧
          (check_signal_trigger P now pred t s).1.active_signal.isSome = true) := by
  constructor
  · intro now pred t s hd
    rcases hA : s.active_signal with _ | sig
    · rcases hT : pred.prediction_time with _ | nyt
      · simp [check_signal_trigger, hA, hT]
      · rcases hF : floatOfField t.p with _ | q
        · simp [check_signal_trigger, hA, hT, hF]
        · simp [check_signal_trigger, hA, hT, hF, le_of_eq hd]
    · simp [check_signal_trigger, hA]
  · intro now pred t s nyt q hA hT hF hd hsess
    exact check_signal_trigger_opens P now pred t s nyt q hA hT hF hd hsess

/-- Witness for C5: with delta 500, a difference of exactly 500 triggers
nothing, while 500.01 opens a position. -/
theorem C5_witness :
    check_signal_trigger P0 0 ⟨some 100000, some 100500, some ⟨0, 9, 0, 0⟩⟩
      ⟨.num 100000⟩ initState = (initState, none) ∧
    ∃ e, (check_signal_trigger P0 0
        ⟨some 100000, some (100500 + 1/100), some ⟨0, 9, 0, 0⟩⟩
        ⟨.num 100000⟩ initState).2 = some e ∧
      e.position = .OPEN ∧
      (check_signal_trigger P0 0
        ⟨some 100000, some (100500 + 1/100), some ⟨0, 9, 0, 0⟩⟩
        ⟨.num 100000⟩ initState).1.active_signal.isSome = true := by
  constructor
  · exact (C5_delta_threshold_strict P0).1 0
      ⟨some 100000, some 100500, some ⟨0, 9, 0, 0⟩⟩ ⟨.num 100000⟩ initState
      (by decide)
  · exact (C5_delta_threshold_strict P0).2 0
      ⟨some 100000, some (100500 + 1/100), some ⟨0, 9, 0, 0⟩⟩
      ⟨.num 100000⟩ initState ⟨0, 9, 0, 0⟩ 100000 rfl rfl rfl
      (by decide) (by decide)

/-- C6: the session boundary — with session filtering enabled, a
prediction whose New-York local time has hour < 8 (any time before
08:00, e.g. 07:59:59), hour ≥ 11 (11:00:00 or later), or falls on
Saturday/Sunday (weekday ≥ 5) never produces a signal or a state change;
and a weekday prediction at exactly 08:00:00 can open a position. -/
theorem C6_session_boundary (P : Params) (hP : P.session_filter = true) :
    (∀ (now : ℚ) (pred : Prediction) (t : Tick) (s : StrategyS)
        (nyt : NYTime),
        pred.prediction_time = some nyt →
        (nyt.hour < 8 ∨ 11 ≤ nyt.hour ∨ 5 ≤ nyt.weekday) →
        check_signal_trigger P now pred t s = (s, none)) ∧
    (∃ e, (check_signal_trigger P 0
        ⟨some 0, some (P.delta + 1), some ⟨0, 8, 0, 0⟩⟩ ⟨.num 100⟩
        initState).2 = some e ∧ e.position = .OPEN) := by
  constructor
  · intro now pred t s nyt hT hbad
    rcases hA : s.active_signal with _ | sig
    · rcases hF : floatOfField t.p with _ | q
      · simp [check_signal_trigger, hA, hT, hF]
      · by_cases hd : |pred.predicted_price.getD 0 -
            pred.prediction_price.getD 0| ≤ P.delta
        · simp [check_signal_trigger, hA, hT, hF, hd]
        · have hsess : P.session_filter ∧
              (5 ≤ nyt.weekday ∨ nyt.hour < 8 ∨ 11 ≤ nyt.hour) :=
            ⟨hP, by tauto⟩
          simp [check_signal_trigger, hA, hT, hF, hd, hsess]
    · simp [check_signal_trigger, hA]
  · have hd : P.delta < |(P.delta + 1 : ℚ) - 0| := by
      rw [sub_zero]
      have := le_abs_self (P.delta + 1)
      linarith
    obtain ⟨e, he, hp, -⟩ := check_signal_trigger_opens P 0
      ⟨some 0, some (P.delta + 1), some ⟨0, 8, 0, 0⟩⟩ ⟨.num 100⟩ initState
      ⟨0, 8, 0, 0⟩ 100 rfl rfl rfl hd
      (fun _ => ⟨by decide, by decide, by decide⟩)
    exact ⟨e, he, hp⟩

/-- Witness for C6: with the default parameters and the filter on, a
Saturday prediction triggers nothing and a Monday 08:00:00 prediction
opens a position. -/
theorem C6_witness :
    check_signal_trigger Pfilter 0
      ⟨some 100000, some 100700, some ⟨5, 9, 30, 0⟩⟩ ⟨.num 100000⟩ initState =
      (initState, none) ∧
    ∃ e, (check_signal_trigger Pfilter 0
        ⟨some 0, some (Pfilter.delta + 1), some ⟨0, 8, 0, 0⟩⟩ ⟨.num 100⟩
        initState).2 = some e ∧ e.position = .OPEN :=
  ⟨(C6_session_boundary Pfilter rfl).1 0
      ⟨some 100000, some 100700, some ⟨5, 9, 30, 0⟩⟩ ⟨.num 100000⟩ initState
      ⟨5, 9, 30, 0⟩ rfl (by decide),
   (C6_session_boundary Pfilter rfl).2⟩

/-- C7 counterexample: a tick whose price field is missing is NOT
harmless — on the open LONG state `sLong` it is read as price 0, which
closes the position with a STOP_LOSS_HIT event, changing the state and
emitting an event. -/
theorem C7_counterexample :
    (check_position_management P0 0 ⟨TickField.absent⟩ sLong).1 ≠ sLong ∧
    (check_position_management P0 0 ⟨TickField.absent⟩ sLong).2 ≠ none := by
  decide

/-- C7 (amended): a tick whose price field is non-numeric raises inside
the handler, is caught and logged, and causes no state change and no
event; a tick whose price field is missing is instead read with the
default price 0.0 and processed like a normal tick at price 0 (which may
well trigger the stop-loss or trailing branches). -/
theorem C7_amended_malformed_ticks (P : Params) :
    (∀ (now : ℚ) (t : Tick) (s : StrategyS), t.p = .junk →
        check_position_management P now t s = (s, none)) ∧
    (∀ (now : ℚ) (s : StrategyS),
        check_position_management P now ⟨.absent⟩ s =
        check_position_management P now ⟨.num 0⟩ s) := by
  constructor
  · intro now t s hj
    rcases hA : s.active_signal with _ | sig
    · simp [check_position_management, hA]
    · simp [check_position_management, hA, hj, floatOfField]
  · intro now s
    rfl

/-- Witness for C7 (amended): a non-numeric tick on the open LONG state
is a no-op. -/
theorem C7_witness :
    check_position_management P0 0 ⟨TickField.junk⟩ sLong = (sLong, none) :=
  (C7_amended_malformed_ticks P0).1 0 ⟨TickField.junk⟩ sLong rfl

/-- C8: no-op tick idempotence — for an active position and a tick that
triggers no branch (not past the time limit, not at/beyond the stop,
not crossing the activation price when trailing is off, not a new
favorable peak when trailing is on), `check_position_management` emits no
event and leaves the entire state (including `seq` and the event
counter) unchanged. -/
theorem C8_noop_tick_frame (P : Params) (now : ℚ) (t : Tick) (s : StrategyS)
    (sig : Signal) (q : ℚ)
    (hA : s.active_signal = some sig)
    (hq : floatOfField t.p = some q)
    (htime : ¬ P.max_position_duration_hours < now - sig.entry_time)
    (hlong : sig.direction = Dir.LONG →
      ¬ q ≤ sig.stop_loss ∧
      (s.trailing_stop_active = true →
        ∀ pk, s.peak_price = some pk → ¬ pk < q) ∧
      (s.trailing_stop_active = false →
        ¬ sig.trailing_activation_price ≤ q))
    (hshort : sig.direction = Dir.SHORT →
      ¬ sig.stop_loss ≤ q ∧
      (s.trailing_stop_active = true →
        ∀ pk, s.peak_price = some pk → ¬ q < pk) ∧
      (s.trailing_stop_active = false →
        ¬ q ≤ sig.trailing_activation_price)) :
    check_position_management P now t s = (s, none) := by
  rcases hdir : sig.direction
  · obtain ⟨h1, h2, h3⟩ := hlong hdir
    cases htr : s.trailing_stop_active
    · simp [check_position_management, hA, hq, htime, hdir, h1, htr, h3 htr]
    · rcases hpk : s.peak_price with _ | pk
      · simp [check_position_management, hA, hq, htime, hdir, h1, htr, hpk]
      · simp [check_position_management, hA, hq, htime, hdir, h1, htr, hpk,
          h2 htr pk hpk]
  · obtain ⟨h1, h2, h3⟩ := hshort hdir
    cases htr : s.trailing_stop_active
    · simp [check_position_management, hA, hq, htime, hdir, h1, htr, h3 htr]
    · rcases hpk : s.peak_price with _ | pk
      · simp [check_position_management, hA, hq, htime, hdir, h1, htr, hpk]
      · simp [check_position_management, hA, hq, htime, hdir, h1, htr, hpk,
          h2 htr pk hpk]

/-- Witness for C8: a tick at 99000 on the open LONG state `sLong`
(stop 98000, activation 101000, trailing off) changes nothing. -/
theorem C8_witness :
    check_position_management P0 0 ⟨TickField.num 99000⟩ sLong = (sLong, none) :=
  C8_noop_tick_frame P0 0 ⟨TickField.num 99000⟩ sLong sigLong 99000
    rfl rfl (by decide)
    (fun _ => ⟨by decide, fun htr => absurd htr (by decide), fun _ => by decide⟩)
    (fun hd => absurd hd (by decide))

/-- C9 counterexample: starting from the just-entered state `c9_entered`
(the state at the moment suppression begins, snapshot seq 1, nothing
frozen yet), one suppressed in-window tick advances the internal state to
seq 2, and the first `get_strategy_state` call during the window then
returns the advanced snapshot — not the strategy state as it was at the
moment suppression began. -/
theorem C9_counterexample :
    c9_entered.offline_frozen_state = none ∧
    (check_trailing_stop TP0 true 51000 c9_entered).2 = none ∧
    (get_strategy_state true c9_advanced).1 ≠ c9_entered.strategy_state := by
  decide

/-- C9 (amended): during the offline window the snapshot is frozen at the
first `get_strategy_state` call made during the window (not at the moment
suppression began): that first call captures and returns the then-current
snapshot, every further in-window call returns exactly the captured
snapshot while internal tick processing (which never touches the capture)
continues to advance the live state and `seq`, and once the window ends
`get_strategy_state` returns the live state again and clears the capture. -/
theorem C9_amended_frozen_state (TP : TestParams) :
    (∀ s : TestS, s.offline_frozen_state = none →
        get_strategy_state true s =
          (s.strategy_state,
           { s with offline_frozen_state := some s.strategy_state })) ∧
    (∀ (s : TestS) (f : Snap), s.offline_frozen_state = some f →
        get_strategy_state true s = (f, s)) ∧
    (∀ (inOffline : Bool) (cp : ℚ) (s : TestS),
        (check_trailing_stop TP inOffline cp s).1.offline_frozen_state =
          s.offline_frozen_state) ∧
    (∀ s : TestS, get_strategy_state false s =
        (s.strategy_state, { s with offline_frozen_state := none })) := by
  refine ⟨?_, ?_, ?_, ?_⟩
  · intro s h
    simp [get_strategy_state, h]
  · intro s f h
    simp [get_strategy_state, h]
  · intro b cp s
    exact check_trailing_stop_frozen TP b cp s
  · intro s
    simp [get_strategy_state]

/-- Witness for C9 (amended): the first in-window call on `c9_advanced`
captures and returns its (advanced) snapshot. -/
theorem C9_witness :
    get_strategy_state true c9_advanced =
      (c9_advanced.strategy_state,
       { c9_advanced with
          offline_frozen_state := some c9_advanced.strategy_state }) :=
  (C9_amended_frozen_state TP0).1 c9_advanced (by decide)

/-- C10: the implicit missing-price edge case in `check_signal_trigger` —
the tick price is read from key "p" with default 0, so a prediction that
passes the delta and session checks while the tick dict has no "p" key
opens a position with entry price 0.0; for LONG direction its stop loss
is `-initial_stop_loss_points` and its trailing activation price is
`trailing_activation_offset`. -/
theorem C10_missing_tick_price_entry_zero (P : Params) (now : ℚ)
    (pred : Prediction) (s : StrategyS) (nyt : NYTime)
    (h1 : s.active_signal = none)
    (h2 : pred.prediction_time = some nyt)
    (h3 : P.delta < |pred.predicted_price.getD 0 - pred.prediction_price.getD 0|)
    (h4 : P.session_filter = true →
        nyt.weekday < 5 ∧ 8 ≤ nyt.hour ∧ nyt.hour < 11) :
    ∃ sig : Signal,
      (check_signal_trigger P now pred ⟨TickField.absent⟩ s).1.active_signal =
        some sig ∧
      sig.entry_price = 0 ∧
      (sig.direction = Dir.LONG →
        sig.stop_loss = -P.initial_stop_loss_points ∧
        sig.trailing_activation_price = P.trailing_activation_offset) := by
  have hnd : ¬ |pred.predicted_price.getD 0 - pred.prediction_price.getD 0| ≤
      P.delta := not_le.mpr h3
  have hns : ¬ (P.session_filter ∧
      (5 ≤ nyt.weekday ∨ nyt.hour < 8 ∨ 11 ≤ nyt.hour)) := by
    rintro ⟨hsf, hbad⟩
    obtain ⟨hw, hh1, hh2⟩ := h4 hsf
    rcases hbad with h | h | h <;> omega
  simp only [check_signal_trigger, h1, h2, hnd, hns, floatOfField,
    Option.isSome_none, Bool.false_eq_true, if_false, reduceIte]
  rw [updateStrategyState_active_signal]
  refine ⟨_, rfl, rfl, ?_⟩
  intro hd
  rw [if_pos hd, if_pos hd]
  exact ⟨zero_sub P.initial_stop_loss_points,
    zero_add P.trailing_activation_offset⟩

/-- Witness for C10: the scenario prediction with a tick dict missing the
"p" key opens a LONG position with entry 0, stop -2000, activation 1000. -/
theorem C10_witness :
    ∃ sig : Signal,
      (check_signal_trigger P0 0 ⟨some 100000, some 100700, some ⟨0, 9, 0, 0⟩⟩
          ⟨TickField.absent⟩ initState).1.active_signal = some sig ∧
      sig.entry_price = 0 ∧
      (sig.direction = Dir.LONG →
        sig.stop_loss = -P0.initial_stop_loss_points ∧
        sig.trailing_activation_price = P0.trailing_activation_offset) :=
  C10_missing_tick_price_entry_zero P0 0
    ⟨some 100000, some 100700, some ⟨0, 9, 0, 0⟩⟩ initState ⟨0, 9, 0, 0⟩
    rfl rfl (by decide) (by decide)

end Tracertool